import Mathlib

/-!
Verification of the voice-chat conversation controller in `src/App.tsx`.

The file shallowly embeds the data model and the event handlers of the
React component `App`: the status enum, the conversation log, the
transcript accumulator (the `onresult` handler), the voice selector
(`loadVoices`), the synthesis wrapper (`speak`), the turn processor
(`processUserMessage`), the recognition-end handler
(`handleRecognitionEnd`), the error handlers, and the single user action
(`handleMicClick`, guarded by the `disabled` attribute of the button).
The three platform subsystems (speech capture, speech synthesis, the
backend chat call) are outside the repository; they are modelled at the
event boundary the component consumes: the environment delivers events,
each carrying the data the corresponding callback receives, and a
callback can only fire while its source is live (a recognition session
that was started and has not ended, an utterance that was handed to the
synthesizer and not cancelled).

Ghost fields on the state (`consumed`, `submitted`, `accepted`,
`spokenTexts`) record the interactions with the platform; the step
function appends to them exactly where the source performs the
corresponding call, and never reads them.
-/

/-- Status enum of the app, `AppStatus` in `types.ts` / `App.tsx`. -/
inductive AppStatus
  | idle
  | listening
  | thinking
  | speaking
  | error
deriving DecidableEq, Repr

/-- Role of a chat message. -/
inductive Role
  | user
  | assistant
deriving DecidableEq, Repr

/-- One entry of the conversation log. -/
structure ChatMessage where
  role : Role
  text : String
deriving DecidableEq, Repr

/-- One platform synthesis voice, as read by `loadVoices`. -/
structure Voice where
  lang : String
  name : String
  isDefault : Bool
deriving DecidableEq, Repr

/-- One speech-capture fragment as delivered inside an `onresult` event:
`event.results[i][0].transcript` and `event.results[i].isFinal`. -/
structure Fragment where
  text : String
  isFinal : Bool
deriving DecidableEq, Repr

/-- JavaScript `String.prototype.includes`, used by the voice picker. -/
def strContains (s sub : String) : Bool :=
  s.data.tails.any (fun t => sub.data.isPrefixOf t)

/-- JavaScript `String.prototype.trim` on a character list: drop
whitespace from both ends. -/
def trimChars (l : List Char) : List Char :=
  ((l.dropWhile Char.isWhitespace).reverse.dropWhile Char.isWhitespace).reverse

/-- JavaScript `String.prototype.trim`. -/
def jsTrim (s : String) : String :=
  String.mk (trimChars s.data)

/-- The fallback chain of `loadVoices` (App.tsx lines 171-176): first
match wins, evaluated among voices whose lang is fr-FR. -/
def pickFrenchVoice (voices : List Voice) : Option Voice :=
  ((((voices.find? (fun v => v.lang == "fr-FR" && strContains v.name "Google")).orElse (fun _ =>
    voices.find? (fun v => v.lang == "fr-FR" && strContains v.name "Aurelie"))).orElse (fun _ =>
    voices.find? (fun v => v.lang == "fr-FR" && (strContains v.name "Female" || strContains v.name "Femme")))).orElse (fun _ =>
    voices.find? (fun v => v.lang == "fr-FR" && v.isDefault))).orElse (fun _ =>
    voices.find? (fun v => v.lang == "fr-FR"))

/-- The `loadVoices` closure (App.tsx lines 167-179): reads the catalog,
returns early when it is empty, otherwise assigns
`selectedVoiceRef.current = frenchVoice || null`. Takes the current
cached selection and returns the new one. -/
def loadVoices (voices : List Voice) (cache : Option Voice) : Option Voice :=
  if voices.length = 0 then cache else pickFrenchVoice voices

/-- The sanitation in `speak` (App.tsx line 76):
`text.replace(/\*/g, \x27\x27)` removes every asterisk. -/
def cleanText (t : String) : String :=
  String.mk (t.data.filter (fun c => c != '*'))

/-- One iteration pass of the `onresult` handler (App.tsx lines 131-142)
over the newly delivered results: every `isFinal` fragment is appended to
the finalized transcript followed by one space, every other fragment is
appended to the interim transcript of this batch (which starts empty).
Returns (finalized, interim). -/
def accumulateBatch (finalized : String) (batch : List Fragment) : String × String :=
  batch.foldl
    (fun acc frag =>
      if frag.isFinal then (acc.1 ++ frag.text ++ " ", acc.2)
      else (acc.1, acc.2 ++ frag.text))
    (finalized, "")

/-- Ordered concatenation of all fragments marked isFinal, each followed
by a single space. This follows the wording of spec property P1 and is
compared against the accumulator embedded from the source. -/
def joinFinals : List Fragment → String
  | [] => ""
  | fr :: rest => if fr.isFinal then fr.text ++ " " ++ joinFinals rest else joinFinals rest

/-- Characters markdown uses as emphasis delimiters. Modelled from the
spec words: markdown emphasis markers, literal emphasis punctuation. -/
def isEmphasisMarker (c : Char) : Bool :=
  c == '*' || c == '_'

/-- Stripping the markdown emphasis markers from a text. Modelled from
the spec words of section 4.4, to be compared with `cleanText`. -/
def stripEmphasisSpec (t : String) : String :=
  String.mk (t.data.filter (fun c => !(isEmphasisMarker c)))

/-- The state of one app session. The first block mirrors the React
state and refs of `App`; `recogSupported` and `synthAvailable` record
which platform capabilities exist (`window.SpeechRecognition`,
`window.speechSynthesis`); `recogActive` is true while a started capture
session has not yet ended; `utteranceActive` is true while an utterance
handed to the synthesizer still has live callbacks. The last four fields
are ghost observers of the platform interaction. -/
structure Session where
  status : AppStatus
  conversation : List ChatMessage
  error : Option String
  transcript : String
  finalTranscript : String
  chatInitialized : Bool
  selectedVoice : Option Voice
  recogSupported : Bool
  synthAvailable : Bool
  recogActive : Bool
  utteranceActive : Bool
  consumed : List String
  submitted : List String
  accepted : List String
  spokenTexts : List String
deriving DecidableEq, Repr

/-- Error message of the `onerror` handler for denied microphone access. -/
def permissionErrorMessage : String :=
  "L\x27accès au microphone est refusé. Veuillez l\x27autoriser dans les paramètres de votre navigateur."

/-- Generic recognition error message of the `onerror` handler. -/
def genericRecognitionErrorMessage : String :=
  "Une erreur de reconnaissance vocale est survenue."

/-- Error message of `utterance.onerror`. -/
def synthesisErrorMessage : String :=
  "Désolé, une erreur de synthèse vocale est survenue."

/-- Error message of the uninitialized-session guard in `processUserMessage`. -/
def notInitializedMessage : String :=
  "La session de chat n\x27est pas initialisée."

/-- Error message thrown when the recognition API is missing. -/
def recognitionUnsupportedMessage : String :=
  "L\x27API de reconnaissance vocale n\x27est pas supportée par ce navigateur."

/-- Fallback error message of the catch block of the bootstrap. -/
def initializationErrorMessage : String :=
  "Erreur d\x27initialisation. Vérifiez la console."

/-- The `speak` callback (App.tsx lines 71-97): returns immediately when
the synthesis capability is absent; otherwise cancels any in-progress
utterance, strips asterisks, sets Status to Speaking and hands the
cleaned text to the synthesizer, registering the utterance callbacks. -/
def speak (text : String) (s : Session) : Session :=
  if s.synthAvailable = false then s
  else
    { s with
      status := AppStatus.speaking,
      utteranceActive := true,
      spokenTexts := s.spokenTexts ++ [cleanText text] }

/-- The `processUserMessage` callback (App.tsx lines 99-116). The
backend outcome of `sendMessageToGemini` is passed in as an oracle;
`services/geminiService.ts` is not part of the sources, so it is
modelled from the spec: section 4.3 says send returns assistant text or
fails with an opaque BackendError. The source has no try/catch around
the awaited call, so on a failed call the rejection escapes the
function: no statement after the await runs, which the model renders by
returning the state reached at the suspension point. -/
def processUserMessage (text : String) (backend : Except Unit String) (s : Session) : Session :=
  if jsTrim text = "" then
    { s with status := AppStatus.idle }
  else
    let s1 := { s with
      conversation := s.conversation ++ [ChatMessage.mk Role.user text],
      status := AppStatus.thinking }
    if s1.chatInitialized = false then
      { s1 with error := some notInitializedMessage, status := AppStatus.error }
    else
      let s2 := { s1 with submitted := s1.submitted ++ [text] }
      match backend with
      | Except.error _ => s2
      | Except.ok reply =>
          let s3 := { s2 with
            conversation := s2.conversation ++ [ChatMessage.mk Role.assistant reply],
            accepted := s2.accepted ++ [reply] }
          speak reply s3

/-- The `onresult` handler (App.tsx lines 131-142) for one delivered
batch of new results: accumulate finals, rebuild the preview. -/
def onresult (batch : List Fragment) (s : Session) : Session :=
  let acc := accumulateBatch s.finalTranscript batch
  { s with finalTranscript := acc.1, transcript := acc.1 ++ acc.2 }

/-- The recognition `onerror` handler (App.tsx lines 143-151). -/
def onRecognitionError (code : String) (s : Session) : Session :=
  let msg :=
    if code = "not-allowed" ∨ code = "service-not-allowed" then permissionErrorMessage
    else genericRecognitionErrorMessage
  { s with error := some msg, status := AppStatus.error }

/-- The `handleRecognitionEnd` handler (App.tsx lines 196-204): only
when Status is Listening, consume the trimmed finalized transcript,
process it, and clear both transcript fields. -/
def handleRecognitionEnd (backend : Except Unit String) (s : Session) : Session :=
  if s.status = AppStatus.listening then
    let t := jsTrim s.finalTranscript
    let s1 := { s with consumed := s.consumed ++ [t] }
    let s2 := processUserMessage t backend s1
    { s2 with finalTranscript := "", transcript := "" }
  else s

/-- The `utterance.onend` callback (App.tsx lines 88-90). -/
def utteranceOnEnd (s : Session) : Session :=
  { s with status := AppStatus.idle, utteranceActive := false }

/-- The `utterance.onerror` callback (App.tsx lines 91-95). -/
def utteranceOnError (s : Session) : Session :=
  { s with error := some synthesisErrorMessage, status := AppStatus.error,
           utteranceActive := false }

/-- The `handleMicClick` handler (App.tsx lines 215-233). It first
clears the error, then branches on Status. In the Speaking branch the
synthesizer is cancelled (which silences the callbacks of the cancelled
utterance, per the SpeechOutput contract of spec section 4.4) and Status
becomes Idle. In the Listening branch stop() is requested and nothing
else changes until the end event. Otherwise both transcript fields are
cleared and capture is started: when the recognition object is null
(unsupported API) the optional-chained start() is a no-op yet Status is
still set to Listening; when a capture session is already active,
start() throws InvalidStateError, so the setStatus line is skipped. -/
def handleMicClick (s : Session) : Session :=
  let s0 := { s with error := none }
  if s0.status = AppStatus.speaking then
    { s0 with utteranceActive := false, status := AppStatus.idle }
  else if s0.status = AppStatus.listening then
    s0
  else
    let s1 := { s0 with finalTranscript := "", transcript := "" }
    if s1.recogSupported then
      if s1.recogActive then s1
      else { s1 with recogActive := true, status := AppStatus.listening }
    else
      { s1 with status := AppStatus.listening }

/-- Events the environment can deliver to the running app. Recognition
events fire only while a capture session is live and synthesis events
only while an utterance is live; the step function returns the state
unchanged otherwise, per the platform contracts of spec sections 4.4
and 4.5 (a cancelled utterance never fires its callbacks, a capture
session fires results, errors and exactly one end event between start
and termination). -/
inductive Ev
  | tap
  | recogResult (batch : List Fragment)
  | recogError (code : String)
  | recogEnd (backend : Except Unit String)
  | synthEnd
  | synthError
  | voicesChanged (voices : List Voice)

/-- One event step of the session. The tap is guarded by the disabled
attribute of the button (App.tsx line 299): while Status is Thinking the
click handler is never invoked. -/
def step (s : Session) (e : Ev) : Session :=
  match e with
  | Ev.tap => if s.status = AppStatus.thinking then s else handleMicClick s
  | Ev.recogResult batch => if s.recogActive then onresult batch s else s
  | Ev.recogError code => if s.recogActive then onRecognitionError code s else s
  | Ev.recogEnd backend =>
      if s.recogActive then handleRecognitionEnd backend { s with recogActive := false } else s
  | Ev.synthEnd => if s.utteranceActive then utteranceOnEnd s else s
  | Ev.synthError => if s.utteranceActive then utteranceOnError s else s
  | Ev.voicesChanged voices => { s with selectedVoice := loadVoices voices s.selectedVoice }

/-- Boot-time facts about the environment: which platform capabilities
exist, the outcome of the bootstrap backend call, and the voice catalog
available at mount time. -/
structure Config where
  recogSupported : Bool
  synthAvailable : Bool
  bootReply : Except Unit String
  initialVoices : List Voice

/-- The state before the mount effect runs. -/
def initialSession (cfg : Config) : Session :=
  { status := AppStatus.idle
    conversation := []
    error := none
    transcript := ""
    finalTranscript := ""
    chatInitialized := false
    selectedVoice := none
    recogSupported := cfg.recogSupported
    synthAvailable := cfg.synthAvailable
    recogActive := false
    utteranceActive := false
    consumed := []
    submitted := []
    accepted := []
    spokenTexts := [] }

/-- The `initialize` callback (App.tsx lines 118-164) together with the
initial `loadVoices()` call of the mount effect. When the recognition
API is missing the thrown error is caught: message set, Status Error,
chat session never created. Otherwise the chat session is created,
Status becomes Thinking and the bootstrap request is awaited: on success
the conversation is set to the single assistant greeting and it is
spoken; a rejection is caught by the try block, setting the fallback
message and Status Error. `createChatSession` and `sendMessageToGemini`
live in `services/geminiService.ts`, absent from the sources, and are
modelled from the spec (section 4.3): session creation yields a handle,
send returns assistant text or fails with an opaque error. -/
def initApp (cfg : Config) (s : Session) : Session :=
  let s0 := { s with selectedVoice := loadVoices cfg.initialVoices s.selectedVoice }
  if s0.recogSupported = false then
    { s0 with error := some recognitionUnsupportedMessage, status := AppStatus.error }
  else
    let s1 := { s0 with chatInitialized := true, status := AppStatus.thinking }
    match cfg.bootReply with
    | Except.error _ =>
        { s1 with error := some initializationErrorMessage, status := AppStatus.error }
    | Except.ok m =>
        let s2 := { s1 with
          conversation := [ChatMessage.mk Role.assistant m],
          accepted := s1.accepted ++ [m] }
        speak m s2

/-- The session right after mount. -/
def boot (cfg : Config) : Session :=
  initApp cfg (initialSession cfg)

/-- The session after booting and delivering a list of events. -/
def run (cfg : Config) (events : List Ev) : Session :=
  events.foldl step (boot cfg)

/-- Texts of the User entries of a log, in order. -/
def userTexts (log : List ChatMessage) : List String :=
  (log.filter (fun m => m.role == Role.user)).map ChatMessage.text

/-- Texts of the Assistant entries of a log, in order. -/
def assistantTexts (log : List ChatMessage) : List String :=
  (log.filter (fun m => m.role == Role.assistant)).map ChatMessage.text

/-- A consumed transcript counts as said only when it does not trim to
the empty string, mirroring the guard of `processUserMessage`. -/
def meaningful (t : String) : Bool :=
  !(jsTrim t == "")

/-! ## Helper lemmas -/

theorem empty_append_str (s : String) : "" ++ s = s :=
  String.ext (by simp [String.data_append])

theorem accum_go (b : List Fragment) : ∀ p : String × String,
    (b.foldl
      (fun acc frag =>
        if frag.isFinal then (acc.1 ++ frag.text ++ " ", acc.2)
        else (acc.1, acc.2 ++ frag.text)) p).1 = p.1 ++ joinFinals b := by
  induction b with
  | nil =>
      intro p
      simp [joinFinals, String.append_empty]
  | cons fr rest ih =>
      intro p
      by_cases hf : fr.isFinal = true
      · simp only [List.foldl_cons, hf, if_true]
        rw [ih]
        simp [joinFinals, hf, String.append_assoc]
      · simp only [List.foldl_cons, hf, if_false]
        rw [ih]
        simp [joinFinals, hf]

theorem accumulateBatch_fst (f : String) (b : List Fragment) :
    (accumulateBatch f b).1 = f ++ joinFinals b :=
  accum_go b (f, "")

theorem joinFinals_append (a b : List Fragment) :
    joinFinals (a ++ b) = joinFinals a ++ joinFinals b := by
  induction a with
  | nil => simp [joinFinals, empty_append_str]
  | cons fr rest ih =>
      by_cases hf : fr.isFinal = true
      · simp [joinFinals, hf, ih, String.append_assoc]
      · simp [joinFinals, hf, ih]

theorem deliver_results (bs : List (List Fragment)) : ∀ s : Session, s.recogActive = true →
    ((bs.map Ev.recogResult).foldl step s).finalTranscript = s.finalTranscript ++ joinFinals bs.flatten ∧
    ((bs.map Ev.recogResult).foldl step s).status = s.status ∧
    ((bs.map Ev.recogResult).foldl step s).recogActive = true ∧
    ((bs.map Ev.recogResult).foldl step s).consumed = s.consumed ∧
    ((bs.map Ev.recogResult).foldl step s).conversation = s.conversation := by
  induction bs with
  | nil =>
      intro s h
      simp [String.append_empty, joinFinals, h]
  | cons b rest ih =>
      intro s h
      have hstep : step s (Ev.recogResult b) = onresult b s := by simp [step, h]
      have hact : (onresult b s).recogActive = true := by simp [onresult, h]
      have := ih (onresult b s) hact
      simp only [List.map_cons, List.foldl_cons, hstep]
      refine ⟨?_, ?_, this.2.2.1, ?_, ?_⟩
      · rw [this.1]
        simp [onresult, accumulateBatch_fst, joinFinals_append, String.append_assoc]
      · rw [this.2.1]; simp [onresult]
      · rw [this.2.2.2.1]; simp [onresult]
      · rw [this.2.2.2.2]; simp [onresult]

@[simp] theorem userTexts_nil : userTexts [] = [] := rfl

@[simp] theorem assistantTexts_nil : assistantTexts [] = [] := rfl

@[simp] theorem userTexts_cons_user (t : String) (l : List ChatMessage) :
    userTexts (ChatMessage.mk Role.user t :: l) = t :: userTexts l := rfl

@[simp] theorem userTexts_cons_assistant (t : String) (l : List ChatMessage) :
    userTexts (ChatMessage.mk Role.assistant t :: l) = userTexts l := rfl

@[simp] theorem assistantTexts_cons_assistant (t : String) (l : List ChatMessage) :
    assistantTexts (ChatMessage.mk Role.assistant t :: l) = t :: assistantTexts l := rfl

@[simp] theorem assistantTexts_cons_user (t : String) (l : List ChatMessage) :
    assistantTexts (ChatMessage.mk Role.user t :: l) = assistantTexts l := rfl

@[simp] theorem userTexts_append (l1 l2 : List ChatMessage) :
    userTexts (l1 ++ l2) = userTexts l1 ++ userTexts l2 := by
  simp [userTexts, List.filter_append]

@[simp] theorem assistantTexts_append (l1 l2 : List ChatMessage) :
    assistantTexts (l1 ++ l2) = assistantTexts l1 ++ assistantTexts l2 := by
  simp [assistantTexts, List.filter_append]

/-- The ghost correspondence invariant of the session: the User entries
of the log are exactly the consumed transcripts that pass the non-blank
guard, the Assistant entries are exactly the accepted backend replies,
each guarded consumed transcript was submitted to the backend exactly
once, a live capture session implies the API exists, the chat session
exists exactly when the recognition API does, and everything handed to
the synthesizer is an accepted reply with asterisks stripped. -/
def SessionInv (s : Session) : Prop :=
  userTexts s.conversation = s.consumed.filter meaningful ∧
  assistantTexts s.conversation = s.accepted ∧
  s.submitted = s.consumed.filter meaningful ∧
  (s.recogActive = true → s.recogSupported = true) ∧
  s.chatInitialized = s.recogSupported ∧
  s.spokenTexts = (if s.synthAvailable then s.accepted.map cleanText else [])

theorem inv_boot (cfg : Config) : SessionInv (boot cfg) := by
  unfold SessionInv boot initApp initialSession
  by_cases hr : cfg.recogSupported = false
  · simp [hr]
  · have hr' : cfg.recogSupported = true := by
      revert hr; cases cfg.recogSupported <;> simp
    cases hb : cfg.bootReply with
    | error e =>
        simp [hr', hb]
    | ok m =>
        by_cases hs : cfg.synthAvailable = false
        · simp [hr', hb, speak, hs]
        · have hs' : cfg.synthAvailable = true := by
            revert hs; cases cfg.synthAvailable <;> simp
          simp [hr', hb, speak, hs']

theorem inv_step (s : Session) (e : Ev) (h : SessionInv s) : SessionInv (step s e) := by
  obtain ⟨h1, h2, h3, h4, h5, h6⟩ := h
  cases e with
  | tap =>
      by_cases hth : s.status = AppStatus.thinking
      · simp only [step, if_pos hth]
        exact ⟨h1, h2, h3, h4, h5, h6⟩
      · simp only [step, if_neg hth]
        unfold handleMicClick
        by_cases hsp : s.status = AppStatus.speaking
        · simp [hsp, SessionInv, h1, h2, h3, h5, h6]
          exact h4
        · by_cases hli : s.status = AppStatus.listening
          · simp [hsp, hli, SessionInv, h1, h2, h3, h5, h6]
            exact h4
          · by_cases hrs : s.recogSupported = true
            · by_cases hra : s.recogActive = true
              · simp [hsp, hli, hrs, hra, SessionInv, h1, h2, h3, h4, h5, h6]
              · simp [hsp, hli, hrs, hra, SessionInv, h1, h2, h3, h4, h5, h6]
            · have hrs' : s.recogSupported = false := by
                revert hrs; cases s.recogSupported <;> simp
              have hra : s.recogActive = false := by
                revert h4
                rw [hrs']
                cases s.recogActive <;> simp
              simp [hsp, hli, hrs', hra, SessionInv, h1, h2, h3, h5, h6]
  | recogResult batch =>
      by_cases hact : s.recogActive = true
      · simp [step, hact, onresult, SessionInv, h1, h2, h3, h4, h5, h6]
      · simp only [step, if_neg hact]
        exact ⟨h1, h2, h3, h4, h5, h6⟩
  | recogError code =>
      by_cases hact : s.recogActive = true
      · simp [step, hact, onRecognitionError, SessionInv, h1, h2, h3, h4, h5, h6]
      · simp only [step, if_neg hact]
        exact ⟨h1, h2, h3, h4, h5, h6⟩
  | recogEnd backend =>
      by_cases hact : s.recogActive = true
      · have hsup : s.recogSupported = true := h4 hact
        have hchat : s.chatInitialized = true := by rw [h5]; exact hsup
        simp only [step, if_pos hact]
        unfold handleRecognitionEnd
        by_cases hli : s.status = AppStatus.listening
        · simp only [hli, if_pos, Session.status]
          unfold processUserMessage
          by_cases ht : jsTrim (jsTrim s.finalTranscript) = ""
          · have hm : meaningful (jsTrim s.finalTranscript) = false := by
              simp [meaningful, ht]
            simp [hli, ht, SessionInv, h1, h2, h3, h4, h5, h6, hm, List.filter_append,
              List.filter_cons]
          · have hm : meaningful (jsTrim s.finalTranscript) = true := by
              simp [meaningful, ht]
            cases backend with
            | error err =>
                simp [hli, ht, hchat, hsup, SessionInv, h1, h2, h3, h4, h5, h6, hm,
                  List.filter_append, List.filter_cons]
            | ok reply =>
                by_cases hs : s.synthAvailable = false
                · simp [hli, ht, hchat, hsup, speak, hs, SessionInv, h1, h2, h3, h4, h5, h6, hm,
                    List.filter_append, List.filter_cons]
                · have hs' : s.synthAvailable = true := by
                    revert hs; cases s.synthAvailable <;> simp
                  simp [hli, ht, hchat, hsup, speak, hs', SessionInv, h1, h2, h3, h4, h5, h6, hm,
                    List.filter_append, List.filter_cons]
        · simp [hli, SessionInv, h1, h2, h3, h4, h5, h6]
      · simp only [step, if_neg hact]
        exact ⟨h1, h2, h3, h4, h5, h6⟩
  | synthEnd =>
      by_cases hact : s.utteranceActive = true
      · simp [step, hact, utteranceOnEnd, SessionInv, h1, h2, h3, h5, h6]
        exact h4
      · simp only [step, if_neg hact]
        exact ⟨h1, h2, h3, h4, h5, h6⟩
  | synthError =>
      by_cases hact : s.utteranceActive = true
      · simp [step, hact, utteranceOnError, SessionInv, h1, h2, h3, h5, h6]
        exact h4
      · simp only [step, if_neg hact]
        exact ⟨h1, h2, h3, h4, h5, h6⟩
  | voicesChanged voices =>
      simp [step, SessionInv, h1, h2, h3, h5, h6]
      exact h4

theorem inv_run (cfg : Config) (events : List Ev) : SessionInv (run cfg events) := by
  unfold run
  induction events using List.reverseRecOn with
  | nil => exact inv_boot cfg
  | append_singleton l e ih =>
      rw [List.foldl_append]
      exact inv_step _ e ih

@[simp] theorem jsTrim_empty : jsTrim "" = "" := rfl

theorem speak_conversation (t : String) (s : Session) :
    (speak t s).conversation = s.conversation := by
  unfold speak
  split <;> rfl

theorem speak_consumed (t : String) (s : Session) :
    (speak t s).consumed = s.consumed := by
  unfold speak
  split <;> rfl

theorem processUserMessage_consumed (t : String) (b : Except Unit String) (s : Session) :
    (processUserMessage t b s).consumed = s.consumed := by
  unfold processUserMessage
  by_cases ht : jsTrim t = ""
  · simp [ht]
  · simp only [if_neg ht]
    by_cases hc : s.chatInitialized = false
    · simp [hc]
    · simp only [hc, if_neg, Bool.false_eq_true]
      cases b with
      | error e => simp [hc]
      | ok r => simp [hc, speak_consumed]

theorem processUserMessage_extends (t : String) (b : Except Unit String) (s : Session) :
    s.conversation <+: (processUserMessage t b s).conversation := by
  by_cases ht : jsTrim t = ""
  · have hcv : (processUserMessage t b s).conversation = s.conversation := by
      simp [processUserMessage, ht]
    rw [hcv]
  · by_cases hc : s.chatInitialized = false
    · have hcv : (processUserMessage t b s).conversation
          = s.conversation ++ [ChatMessage.mk Role.user t] := by
        simp [processUserMessage, ht, hc]
      rw [hcv]
      exact List.prefix_append _ _
    · cases b with
      | error e =>
          have hcv : (processUserMessage t (Except.error e) s).conversation
              = s.conversation ++ [ChatMessage.mk Role.user t] := by
            simp [processUserMessage, ht, hc]
          rw [hcv]
          exact List.prefix_append _ _
      | ok r =>
          have hcv : (processUserMessage t (Except.ok r) s).conversation
              = (s.conversation ++ [ChatMessage.mk Role.user t])
                  ++ [ChatMessage.mk Role.assistant r] := by
            simp [processUserMessage, ht, hc, speak_conversation]
          rw [hcv]
          exact (List.prefix_append _ _).trans (List.prefix_append _ _)

theorem handleMicClick_conversation (s : Session) :
    (handleMicClick s).conversation = s.conversation := by
  unfold handleMicClick
  by_cases hsp : s.status = AppStatus.speaking
  · simp [hsp]
  · by_cases hli : s.status = AppStatus.listening
    · simp [hsp, hli]
    · by_cases hrs : s.recogSupported = true
      · by_cases hra : s.recogActive = true
        · simp [hsp, hli, hrs, hra]
        · simp [hsp, hli, hrs, hra]
      · simp [hsp, hli, hrs]

theorem handleRecognitionEnd_extends (b : Except Unit String) (s : Session) :
    s.conversation <+: (handleRecognitionEnd b s).conversation := by
  unfold handleRecognitionEnd
  by_cases hl : s.status = AppStatus.listening
  · simp only [if_pos hl]
    exact processUserMessage_extends (jsTrim s.finalTranscript) b
      { s with consumed := s.consumed ++ [jsTrim s.finalTranscript] }
  · simp only [if_neg hl]
    exact List.prefix_refl _

theorem step_extends (s : Session) (e : Ev) :
    s.conversation <+: (step s e).conversation := by
  cases e with
  | tap =>
      by_cases hth : s.status = AppStatus.thinking
      · simp only [step, if_pos hth]
        exact List.prefix_refl _
      · simp only [step, if_neg hth, handleMicClick_conversation]
        exact List.prefix_refl _
  | recogResult batch =>
      by_cases hact : s.recogActive = true
      · simp only [step, if_pos hact]
        exact List.prefix_refl _
      · simp only [step, if_neg hact]
        exact List.prefix_refl _
  | recogError code =>
      by_cases hact : s.recogActive = true
      · simp only [step, if_pos hact]
        exact List.prefix_refl _
      · simp only [step, if_neg hact]
        exact List.prefix_refl _
  | recogEnd backend =>
      by_cases hact : s.recogActive = true
      · simp only [step, if_pos hact]
        exact handleRecognitionEnd_extends backend { s with recogActive := false }
      · simp only [step, if_neg hact]
        exact List.prefix_refl _
  | synthEnd =>
      by_cases hact : s.utteranceActive = true
      · simp only [step, if_pos hact]
        exact List.prefix_refl _
      · simp only [step, if_neg hact]
        exact List.prefix_refl _
  | synthError =>
      by_cases hact : s.utteranceActive = true
      · simp only [step, if_pos hact]
        exact List.prefix_refl _
      · simp only [step, if_neg hact]
        exact List.prefix_refl _
  | voicesChanged voices =>
      exact List.prefix_refl _

theorem stuck_step (s : Session) (e : Ev) (h1 : s.status = AppStatus.thinking)
    (h2 : s.recogActive = false) (h3 : s.utteranceActive = false) :
    (step s e).status = AppStatus.thinking ∧ (step s e).recogActive = false ∧
    (step s e).utteranceActive = false ∧ (step s e).conversation = s.conversation ∧
    (step s e).spokenTexts = s.spokenTexts := by
  cases e <;> simp [step, h1, h2, h3]

theorem stuck_run (evs : List Ev) : ∀ s : Session, s.status = AppStatus.thinking →
    s.recogActive = false → s.utteranceActive = false →
    (evs.foldl step s).status = AppStatus.thinking ∧
    (evs.foldl step s).conversation = s.conversation := by
  induction evs with
  | nil =>
      intro s h1 h2 h3
      exact ⟨h1, rfl⟩
  | cons e rest ih =>
      intro s h1 h2 h3
      have hs := stuck_step s e h1 h2 h3
      have hrest := ih (step s e) hs.1 hs.2.1 hs.2.2.1
      exact ⟨hrest.1, by rw [List.foldl_cons, hrest.2, hs.2.2.2.1]⟩

theorem cleanText_no_star (t : String) : '*' ∉ (cleanText t).data := by
  intro hmem
  rw [cleanText] at hmem
  simp [List.mem_filter] at hmem

/-! ## Concrete fixtures -/

/-- Environment of a fully supported platform whose bootstrap greeting
succeeds. -/
def cfgA : Config :=
  { recogSupported := true, synthAvailable := true,
    bootReply := Except.ok "Salut !", initialVoices := [] }

/-- Events of one reachable run: cancel the spoken greeting, start
listening, capture one final fragment, end the session with a failing
backend call. -/
def evsC1 : List Ev :=
  [Ev.tap, Ev.tap, Ev.recogResult [Fragment.mk "bonjour" true],
   Ev.recogEnd (Except.error ())]

/-- A session in the middle of a Listening capture. -/
def sListenC3 : Session :=
  { status := AppStatus.listening, conversation := [], error := none,
    transcript := "", finalTranscript := "", chatInitialized := true,
    selectedVoice := none, recogSupported := true, synthAvailable := true,
    recogActive := true, utteranceActive := false,
    consumed := [], submitted := [], accepted := [], spokenTexts := [] }

/-- Two batch sequences carrying the same fragments chunked differently. -/
def bsW : List (List Fragment) :=
  [[Fragment.mk "bonjour" true], [Fragment.mk "ça" false, Fragment.mk "ça va" true]]

/-- The fragments of `bsW` delivered as a single batch. -/
def bsW2 : List (List Fragment) :=
  [[Fragment.mk "bonjour" true, Fragment.mk "ça" false, Fragment.mk "ça va" true]]

/-- A Listening session whose captured transcript is whitespace only. -/
def sBlankC4 : Session :=
  { status := AppStatus.listening, conversation := [], error := none,
    transcript := "", finalTranscript := "   ", chatInitialized := true,
    selectedVoice := none, recogSupported := true, synthAvailable := true,
    recogActive := true, utteranceActive := false,
    consumed := [], submitted := [], accepted := [], spokenTexts := [] }

/-- A session in the middle of a spoken reply. -/
def sSpeakC5 : Session :=
  { status := AppStatus.speaking,
    conversation := [ChatMessage.mk Role.assistant "Salut !"], error := none,
    transcript := "", finalTranscript := "", chatInitialized := true,
    selectedVoice := none, recogSupported := true, synthAvailable := true,
    recogActive := false, utteranceActive := true,
    consumed := [], submitted := [], accepted := ["Salut !"],
    spokenTexts := ["Salut !"] }

/-- An idle session with no live utterance. -/
def uIdleC5 : Session :=
  { status := AppStatus.idle,
    conversation := [ChatMessage.mk Role.assistant "Salut !"], error := none,
    transcript := "", finalTranscript := "", chatInitialized := true,
    selectedVoice := none, recogSupported := true, synthAvailable := true,
    recogActive := false, utteranceActive := false,
    consumed := [], submitted := [], accepted := ["Salut !"],
    spokenTexts := ["Salut !"] }

/-- A session awaiting a backend reply. -/
def sThinkC6 : Session :=
  { status := AppStatus.thinking,
    conversation := [ChatMessage.mk Role.user "bonjour"], error := none,
    transcript := "", finalTranscript := "", chatInitialized := true,
    selectedVoice := none, recogSupported := true, synthAvailable := true,
    recogActive := false, utteranceActive := false,
    consumed := ["bonjour"], submitted := ["bonjour"], accepted := [],
    spokenTexts := [] }

/-- A Google-engine French voice. -/
def vGoogle : Voice := { lang := "fr-FR", name := "Google français", isDefault := false }

/-- A persona-named French voice. -/
def vAurelie : Voice := { lang := "fr-FR", name := "Aurelie", isDefault := false }

/-- A voice of another locale. -/
def vEnglish : Voice := { lang := "en-US", name := "Samantha", isDefault := false }

/-- Environment whose bootstrap greeting carries underscore emphasis. -/
def cfgC9 : Config :=
  { recogSupported := true, synthAvailable := true,
    bootReply := Except.ok "_salut_", initialVoices := [] }

/-- Environment whose bootstrap greeting carries asterisk emphasis. -/
def cfgW9 : Config :=
  { recogSupported := true, synthAvailable := true,
    bootReply := Except.ok "**Salut**", initialVoices := [] }

/-- A Listening session on a platform without speech synthesis. -/
def sNoSynthC10 : Session :=
  { status := AppStatus.listening, conversation := [], error := none,
    transcript := "bonjour ", finalTranscript := "bonjour ",
    chatInitialized := true, selectedVoice := none, recogSupported := true,
    synthAvailable := false, recogActive := true, utteranceActive := false,
    consumed := [], submitted := [], accepted := [], spokenTexts := [] }

/-! ## Claims -/

/-- Claim C1, evaluated on the code: on a reachable run where the
backend call made while Status is Thinking fails, the embedded code
leaves Status at Thinking with no error message set, because the awaited
send in processUserMessage has no try/catch and the rejection escapes
the handler; the conversation log does retain the just-appended User
message and no Assistant message is appended. This contradicts the
claimed transition to Error with a message set, while confirming the two
log clauses. -/
theorem backendFailure_leaves_thinking :
    (run cfgA evsC1).status = AppStatus.thinking ∧
    (run cfgA evsC1).error = none ∧
    (run cfgA evsC1).conversation
      = [ChatMessage.mk Role.assistant "Salut !", ChatMessage.mk Role.user "bonjour"] ∧
    (run cfgA evsC1).submitted = ["bonjour"] := by
  decide

/-- Claim C2: in every reachable state, the User entries of the log are
exactly the non-blank transcripts consumed at capture session ends, in
order; the Assistant entries are exactly the successfully returned
backend replies, in order; and the texts submitted to the backend are
exactly those same consumed non-blank transcripts, so no consumed
transcript is lost or double-submitted. -/
theorem log_matches_consumed_and_accepted (cfg : Config) (events : List Ev) :
    userTexts (run cfg events).conversation = (run cfg events).consumed.filter meaningful ∧
    assistantTexts (run cfg events).conversation = (run cfg events).accepted ∧
    (run cfg events).submitted = (run cfg events).consumed.filter meaningful :=
  ⟨(inv_run cfg events).1, (inv_run cfg events).2.1, (inv_run cfg events).2.2.1⟩

/-- Claim C3: delivering any sequence of capture-result batches to a
live capture session accumulates exactly the ordered concatenation of
the isFinal fragments, each followed by a single space; the result
depends only on the flattened fragment list, not on the chunking; and
the transcript consumed at the session-ended event is that concatenation
trimmed. -/
theorem finalized_transcript_concat (s : Session) (bs : List (List Fragment))
    (h1 : s.recogActive = true) (h2 : s.status = AppStatus.listening) :
    ((bs.map Ev.recogResult).foldl step s).finalTranscript
      = s.finalTranscript ++ joinFinals bs.flatten ∧
    (∀ bs2 : List (List Fragment), bs2.flatten = bs.flatten →
      ((bs2.map Ev.recogResult).foldl step s).finalTranscript
        = ((bs.map Ev.recogResult).foldl step s).finalTranscript) ∧
    ∀ backend : Except Unit String,
      (step ((bs.map Ev.recogResult).foldl step s) (Ev.recogEnd backend)).consumed
        = s.consumed ++ [jsTrim (s.finalTranscript ++ joinFinals bs.flatten)] := by
  obtain ⟨f1, st1, ra1, co1, cv1⟩ := deliver_results bs s h1
  refine ⟨f1, ?_, ?_⟩
  · intro bs2 hj
    obtain ⟨f2, _, _, _, _⟩ := deliver_results bs2 s h1
    rw [f2, f1, hj]
  · intro backend
    simp only [step, if_pos ra1]
    unfold handleRecognitionEnd
    simp [st1, h2, processUserMessage_consumed, co1, f1]

/-- Witness for C3 on concrete batches, including the chunking
independence at a concretely rechunked sequence and the consumption at a
concrete backend outcome. -/
theorem finalized_transcript_concat_witness :
    ((bsW.map Ev.recogResult).foldl step sListenC3).finalTranscript
      = sListenC3.finalTranscript ++ joinFinals bsW.flatten ∧
    ((bsW2.map Ev.recogResult).foldl step sListenC3).finalTranscript
      = ((bsW.map Ev.recogResult).foldl step sListenC3).finalTranscript ∧
    (step ((bsW.map Ev.recogResult).foldl step sListenC3)
        (Ev.recogEnd (Except.ok "ok"))).consumed
      = sListenC3.consumed ++ [jsTrim (sListenC3.finalTranscript ++ joinFinals bsW.flatten)] :=
  ⟨(finalized_transcript_concat sListenC3 bsW rfl rfl).1,
   (finalized_transcript_concat sListenC3 bsW rfl rfl).2.1 bsW2 (by decide),
   (finalized_transcript_concat sListenC3 bsW rfl rfl).2.2 (Except.ok "ok")⟩

/-- Claim C4: when the finalized transcript at a capture session end
trims to the empty string, the turn ends silently: Status returns
directly to Idle, the conversation log is unchanged, and nothing is
submitted to the backend. -/
theorem blank_transcript_silent (s : Session) (backend : Except Unit String)
    (h1 : s.recogActive = true) (h2 : s.status = AppStatus.listening)
    (h3 : jsTrim s.finalTranscript = "") :
    (step s (Ev.recogEnd backend)).status = AppStatus.idle ∧
    (step s (Ev.recogEnd backend)).conversation = s.conversation ∧
    (step s (Ev.recogEnd backend)).submitted = s.submitted := by
  simp only [step, if_pos h1]
  unfold handleRecognitionEnd
  simp [h2, h3, processUserMessage]

/-- Witness for C4 at a whitespace-only transcript. -/
theorem blank_transcript_silent_witness :
    (step sBlankC4 (Ev.recogEnd (Except.ok "r"))).status = AppStatus.idle ∧
    (step sBlankC4 (Ev.recogEnd (Except.ok "r"))).conversation = sBlankC4.conversation ∧
    (step sBlankC4 (Ev.recogEnd (Except.ok "r"))).submitted = sBlankC4.submitted :=
  blank_transcript_silent sBlankC4 (Except.ok "r") rfl rfl (by decide)

/-- Claim C5: tapping the control while Status is Speaking cancels the
utterance and sets Status to Idle without touching the log; and in any
state with no live utterance (in particular right after that
cancellation, the SpeechOutput contract making cancellation silent), a
synthesis completion or error event is a no-op on the whole state. -/
theorem tap_while_speaking_cancels (s u : Session)
    (hs : s.status = AppStatus.speaking) (hu : u.utteranceActive = false) :
    (step s Ev.tap).status = AppStatus.idle ∧
    (step s Ev.tap).conversation = s.conversation ∧
    (step s Ev.tap).utteranceActive = false ∧
    step u Ev.synthEnd = u ∧ step u Ev.synthError = u := by
  refine ⟨?_, ?_, ?_, ?_, ?_⟩ <;> simp [step, handleMicClick, hs, hu]

/-- Witness for C5 at a concrete speaking session and a concrete
utterance-free session. -/
theorem tap_while_speaking_cancels_witness :
    (step sSpeakC5 Ev.tap).status = AppStatus.idle ∧
    (step sSpeakC5 Ev.tap).conversation = sSpeakC5.conversation ∧
    (step sSpeakC5 Ev.tap).utteranceActive = false ∧
    step uIdleC5 Ev.synthEnd = uIdleC5 ∧ step uIdleC5 Ev.synthError = uIdleC5 :=
  tap_while_speaking_cancels sSpeakC5 uIdleC5 rfl rfl

/-- Claim C6: while Status is Thinking the user action is disabled at
the button, so a tap leaves the whole session state unchanged: no
transition and no side effect. -/
theorem tap_ignored_while_thinking (s : Session) (h : s.status = AppStatus.thinking) :
    step s Ev.tap = s := by
  simp [step, h]

/-- Witness for C6 at a concrete thinking session. -/
theorem tap_ignored_while_thinking_witness : step sThinkC6 Ev.tap = sThinkC6 :=
  tap_ignored_while_thinking sThinkC6 rfl

/-- Claim C7 counterexample: after a first invocation resolves the cache
to the Google voice, a second invocation with a changed non-empty
catalog overwrites the non-null cached selection with a different voice,
and an invocation with a catalog holding no French voice overwrites a
non-null cache with null; so a non-null cached selection is not
preserved by subsequent invocations. -/
theorem voice_cache_overwritten :
    ([[vGoogle]].foldl (fun c cat => loadVoices cat c) none = some vGoogle) ∧
    ([[vGoogle], [vAurelie]].foldl (fun c cat => loadVoices cat c) none = some vAurelie) ∧
    some vAurelie ≠ some vGoogle ∧
    loadVoices [vEnglish] (some vGoogle) = none := by
  decide

/-- Claim C7 as amended: a successful resolution does replace an earlier
null cache, but the selection is not resolve-once: every invocation with
a non-empty catalog ignores the cached value entirely and overwrites it
with the current resolution result, and only an empty-catalog invocation
preserves the cache. -/
theorem voice_selection_not_resolve_once (voices : List Voice) (c1 c2 : Option Voice)
    (v : Voice) (hp : pickFrenchVoice voices = some v) (hne : voices ≠ []) :
    loadVoices voices none = some v ∧
    loadVoices voices c1 = loadVoices voices c2 ∧
    loadVoices [] c1 = c1 := by
  have hlen : ¬ voices.length = 0 := by simpa using hne
  exact ⟨by simp [loadVoices, hlen, hp], by simp [loadVoices, hlen], rfl⟩

/-- Witness for the amended C7 at concrete catalogs and caches. -/
theorem voice_selection_not_resolve_once_witness :
    loadVoices [vGoogle] none = some vGoogle ∧
    loadVoices [vGoogle] (some vAurelie) = loadVoices [vGoogle] none ∧
    loadVoices [] (some vAurelie) = some vAurelie :=
  voice_selection_not_resolve_once [vGoogle] (some vAurelie) none vGoogle
    (by decide) (by decide)

/-- Claim C8: the conversation log is append-only: after delivering any
further event to any reachable state, the previous log is a prefix of
the new log. -/
theorem conversation_append_only (cfg : Config) (events : List Ev) (e : Ev) :
    (run cfg events).conversation <+: (run cfg (events ++ [e])).conversation := by
  unfold run
  rw [List.foldl_append]
  exact step_extends _ e

/-- Claim C9 counterexample: the bootstrap reply carrying underscore
emphasis is handed to the synthesizer with the underscores intact, so
the text passed to synthesis is not the input with the markdown emphasis
markers stripped and the synthesized output can contain literal emphasis
punctuation. -/
theorem underscore_marker_not_stripped :
    (run cfgC9 []).spokenTexts = ["_salut_"] ∧
    stripEmphasisSpec "_salut_" = "salut" ∧
    (run cfgC9 []).spokenTexts ≠ [stripEmphasisSpec "_salut_"] ∧
    ((run cfgC9 []).spokenTexts.all
      (fun t => t.data.all (fun c => !(isEmphasisMarker c)))) = false := by
  decide

/-- Claim C9 as amended: in every reachable state, every text handed to
the synthesizer is an accepted backend reply with all asterisks removed,
so the synthesized output never contains a literal asterisk; underscore
emphasis markers are not stripped. -/
theorem spoken_text_strips_asterisks (cfg : Config) (events : List Ev) :
    (run cfg events).spokenTexts
      = (if (run cfg events).synthAvailable then
          (run cfg events).accepted.map cleanText else []) ∧
    ∀ t : String, t ∈ (run cfg events).spokenTexts → '*' ∉ t.data := by
  have h6 := (inv_run cfg events).2.2.2.2.2
  refine ⟨h6, ?_⟩
  intro t ht
  rw [h6] at ht
  by_cases hs : (run cfg events).synthAvailable = true
  · rw [if_pos hs] at ht
    obtain ⟨u, hu, rfl⟩ := List.mem_map.1 ht
    exact cleanText_no_star u
  · rw [if_neg hs] at ht
    simp at ht

/-- Witness for the amended C9 at a concrete run whose reply carries
asterisk emphasis. -/
theorem spoken_text_strips_asterisks_witness :
    (run cfgW9 []).spokenTexts
      = (if (run cfgW9 []).synthAvailable then
          (run cfgW9 []).accepted.map cleanText else []) ∧
    '*' ∉ ("Salut" : String).data :=
  ⟨(spoken_text_strips_asterisks cfgW9 []).1,
   (spoken_text_strips_asterisks cfgW9 []).2 "Salut" (by decide)⟩

/-- Claim C10: when the synthesis capability is absent, a successful
turn still appends the User and Assistant messages, but speak returns
immediately: nothing is handed to the synthesizer, Status is never set
to Speaking, no utterance is registered so no completion or error event
can ever fire, and Status stays at Thinking across every subsequent
event sequence with the log frozen. -/
theorem missing_synthesis_stays_thinking (s : Session) (r : String)
    (h1 : s.synthAvailable = false) (h2 : s.status = AppStatus.listening)
    (h3 : s.recogActive = true) (h4 : s.chatInitialized = true)
    (h5 : meaningful (jsTrim s.finalTranscript) = true)
    (h6 : s.utteranceActive = false) :
    (step s (Ev.recogEnd (Except.ok r))).status = AppStatus.thinking ∧
    (step s (Ev.recogEnd (Except.ok r))).utteranceActive = false ∧
    (step s (Ev.recogEnd (Except.ok r))).spokenTexts = s.spokenTexts ∧
    (step s (Ev.recogEnd (Except.ok r))).conversation
      = s.conversation ++ [ChatMessage.mk Role.user (jsTrim s.finalTranscript),
          ChatMessage.mk Role.assistant r] ∧
    ∀ evs : List Ev,
      (evs.foldl step (step s (Ev.recogEnd (Except.ok r)))).status = AppStatus.thinking ∧
      (evs.foldl step (step s (Ev.recogEnd (Except.ok r)))).conversation
        = (step s (Ev.recogEnd (Except.ok r))).conversation := by
  have ht : ¬ jsTrim (jsTrim s.finalTranscript) = "" := by
    intro hcon
    rw [meaningful, hcon] at h5
    simp at h5
  have e1 : (step s (Ev.recogEnd (Except.ok r))).status = AppStatus.thinking := by
    simp [step, h3, handleRecognitionEnd, h2, processUserMessage, ht, h4, speak, h1]
  have e2 : (step s (Ev.recogEnd (Except.ok r))).utteranceActive = false := by
    simp [step, h3, handleRecognitionEnd, h2, processUserMessage, ht, h4, speak, h1, h6]
  have e3 : (step s (Ev.recogEnd (Except.ok r))).spokenTexts = s.spokenTexts := by
    simp [step, h3, handleRecognitionEnd, h2, processUserMessage, ht, h4, speak, h1]
  have e4 : (step s (Ev.recogEnd (Except.ok r))).conversation
      = s.conversation ++ [ChatMessage.mk Role.user (jsTrim s.finalTranscript),
          ChatMessage.mk Role.assistant r] := by
    simp [step, h3, handleRecognitionEnd, h2, processUserMessage, ht, h4, speak, h1]
  have e5 : (step s (Ev.recogEnd (Except.ok r))).recogActive = false := by
    simp [step, h3, handleRecognitionEnd, h2, processUserMessage, ht, h4, speak, h1]
  refine ⟨e1, e2, e3, e4, ?_⟩
  intro evs
  exact stuck_run evs _ e1 e5 e2

/-- Witness for C10 at a concrete no-synthesis session and reply. -/
theorem missing_synthesis_stays_thinking_witness :
    (step sNoSynthC10 (Ev.recogEnd (Except.ok "Salut !"))).status = AppStatus.thinking ∧
    (step sNoSynthC10 (Ev.recogEnd (Except.ok "Salut !"))).utteranceActive = false ∧
    (step sNoSynthC10 (Ev.recogEnd (Except.ok "Salut !"))).spokenTexts
      = sNoSynthC10.spokenTexts ∧
    (step sNoSynthC10 (Ev.recogEnd (Except.ok "Salut !"))).conversation
      = sNoSynthC10.conversation
          ++ [ChatMessage.mk Role.user (jsTrim sNoSynthC10.finalTranscript),
              ChatMessage.mk Role.assistant "Salut !"] ∧
    ([Ev.tap, Ev.synthEnd].foldl step
        (step sNoSynthC10 (Ev.recogEnd (Except.ok "Salut !")))).status
      = AppStatus.thinking :=
  have h := missing_synthesis_stays_thinking sNoSynthC10 "Salut !" rfl rfl rfl rfl
    (by decide) rfl
  ⟨h.1, h.2.1, h.2.2.1, h.2.2.2.1, (h.2.2.2.2 [Ev.tap, Ev.synthEnd]).1⟩
